import Mathlib

/-!
Verification of the fetch-and-derive pipeline of the Smart City Traffic and
Pollution Monitoring dashboard (src/app.py).

The upstream HTTP responses are parsed JSON; we model JSON values with
rational numbers, Python runtime exceptions with an explicit error type
threaded through the Except monad, and each fetch function as a Lean
function over the response(s) its HTTP calls would produce.  Transport is
modelled as an argument: an Except value (or a function producing one) that
either yields the parsed JSON body or raises a transport-level exception.
-/

namespace SmartCity

/-- JSON values as returned by the upstream endpoints.  Numbers are modelled
as rationals. -/
inductive Json : Type where
  | null : Json
  | bool : Bool → Json
  | num : ℚ → Json
  | str : String → Json
  | arr : List Json → Json
  | obj : List (String × Json) → Json

/-- Python runtime exceptions the embedded code can raise. -/
inductive PyError : Type where
  | keyError : String → PyError
  | indexError : PyError
  | typeError : PyError
  | zeroDivisionError : PyError
  | transportError : String → PyError
deriving DecidableEq

/-- Message text of an exception, as str(e) would render it. -/
def PyError.msg : PyError → String
  | .keyError k => "KeyError: " ++ k
  | .indexError => "IndexError: list index out of range"
  | .typeError => "TypeError: unsupported operand type"
  | .zeroDivisionError => "ZeroDivisionError: float division by zero"
  | .transportError m => m

/-- Decides whether the needle is a prefix of the haystack (character lists). -/
def listLeadsWith : List Char → List Char → Bool
  | _, [] => true
  | [], _ :: _ => false
  | h :: hs, n :: ns => h == n && listLeadsWith hs ns

/-- Decides whether the needle occurs as a contiguous substring of the
haystack (character lists). -/
def strHasSub : List Char → List Char → Bool
  | [], needle => needle.isEmpty
  | h :: t, needle => listLeadsWith (h :: t) needle || strHasSub t needle

/-- Python membership test k in j: key lookup on a dict, element test on a
list, substring test on a string, and a TypeError on anything else. -/
def Json.hasKey : Json → String → Except PyError Bool
  | .obj fs, k => .ok (fs.any fun p => decide (p.1 = k))
  | .arr xs, k =>
    .ok (xs.any fun x => match x with | .str s => decide (s = k) | _ => false)
  | .str s, k => .ok (strHasSub s.toList k.toList)
  | _, _ => .error .typeError

/-- Python subscript j[k] with a string key: field lookup on a dict (KeyError
when absent), TypeError on anything else. -/
def Json.index : Json → String → Except PyError Json
  | .obj fs, k =>
    match fs.find? (fun p => decide (p.1 = k)) with
    | some p => .ok p.2
    | none => .error (.keyError k)
  | _, _ => .error .typeError

/-- Python subscript j[i] with a nonnegative integer index: element of a
list, character of a string, IndexError when out of range, TypeError
otherwise. -/
def Json.atIdx : Json → Nat → Except PyError Json
  | .arr xs, i =>
    match xs.get? i with
    | some x => .ok x
    | none => .error .indexError
  | .str s, i =>
    match s.toList.get? i with
    | some c => .ok (.str (String.mk [c]))
    | none => .error .indexError
  | _, _ => .error .typeError

/-- Python truthiness of a JSON value. -/
def Json.truthy : Json → Bool
  | .null => false
  | .bool b => b
  | .num q => decide (q ≠ 0)
  | .str s => decide (s ≠ "")
  | .arr xs => !xs.isEmpty
  | .obj fs => !fs.isEmpty

/-- Python equality test of a JSON value against a string literal: true
exactly for the equal string, false for every other value. -/
def Json.eqStr : Json → String → Bool
  | .str s, t => decide (s = t)
  | _, _ => false

/-- Python numeric coercion for arithmetic: numbers are themselves, booleans
act as 0 or 1, anything else raises a TypeError. -/
def Json.toNum : Json → Except PyError ℚ
  | .num q => .ok q
  | .bool b => .ok (if b then 1 else 0)
  | _ => .error .typeError

/-- Python iteration over a JSON value: a list yields its elements, a dict
its keys, a string its characters; anything else raises a TypeError. -/
def Json.toIter : Json → Except PyError (List Json)
  | .arr xs => .ok xs
  | .obj fs => .ok (fs.map fun p => .str p.1)
  | .str s => .ok (s.toList.map fun c => .str (String.mk [c]))
  | _ => .error .typeError

/-- Result of get_pollution_data: the (components, lat, lon) triple returned,
together with the st.error messages emitted on the way. -/
structure PollutionResult where
  components : Option Json
  lat : Option Json
  lon : Option Json
  errors : List String

/-- Embedding of get_pollution_data (src/app.py, lines 24-48).  The first
argument is the parsed geocode response (or a transport error from that
request); the second maps the extracted lat and lon to the parsed pollution
response (or a transport error).  Exceptions propagate: the function has no
try/except. -/
def get_pollution_data (cityResp : Except PyError Json)
    (pollFetch : Json → Json → Except PyError Json) :
    Except PyError PollutionResult := do
  let city_response ← cityResp
  if (← city_response.hasKey "coord") then
    let coord ← city_response.index "coord"
    let lat ← coord.index "lat"
    let lon ← coord.index "lon"
    let pollution_response ← pollFetch lat lon
    if (← pollution_response.hasKey "list") then
      let lst ← pollution_response.index "list"
      if lst.truthy then
        let first ← lst.atIdx 0
        let components ← first.index "components"
        return ⟨some components, some lat, some lon, []⟩
      else
        return ⟨none, none, none,
          ["Pollution data not available for the selected city."]⟩
    else
      return ⟨none, none, none,
        ["Pollution data not available for the selected city."]⟩
  else
    return ⟨none, none, none, ["City not found or invalid API key."]⟩

/-- Route request sent to the routing endpoint: origin and synthetic
destination, each in the (longitude, latitude) order ORS expects. -/
structure RouteRequest where
  startLon : ℚ
  startLat : ℚ
  endLon : ℚ
  endLat : ℚ
deriving DecidableEq

/-- Embedding of the origin and destination construction in get_traffic_data
(src/app.py, lines 52-53): the destination is the origin shifted by +0.01
degrees in both coordinates. -/
def mkRouteRequest (lat lon : ℚ) : RouteRequest :=
  ⟨lon, lat, lon + 1/100, lat + 1/100⟩

/-- The record get_traffic_data returns on success. -/
structure TrafficInfo where
  duration : ℚ
  distance : ℚ
  expected_duration : ℚ
  congestion : ℚ
deriving DecidableEq

/-- Body of the try block of get_traffic_data (src/app.py, lines 62-85):
parse the response, extract duration and distance from the first feature's
summary, derive expected duration at 50 km/h and the congestion percentage.
Python evaluation order is kept: the arithmetic on distance runs before the
arithmetic on duration, and the division raises ZeroDivisionError when the
expected duration is zero. -/
def get_traffic_try (response : Except PyError Json) :
    Except PyError (Option TrafficInfo × List String) := do
  let resp ← response
  if (← resp.hasKey "features") then
    let feats ← resp.index "features"
    if feats.truthy then
      let f0 ← feats.atIdx 0
      let properties ← f0.index "properties"
      let summary ← properties.index "summary"
      let durationJ ← summary.index "duration"
      let distanceJ ← summary.index "distance"
      let distance ← distanceJ.toNum
      let expected_duration := distance / 1000 / 50 * 3600
      let duration ← durationJ.toNum
      if expected_duration = 0 then
        .error .zeroDivisionError
      else
        let congestion := (duration - expected_duration) / expected_duration * 100
        return (some ⟨duration, distance, expected_duration, congestion⟩, [])
    else
      return (none, ["No route found in the API response."])
  else
    return (none, ["No route found in the API response."])

/-- Embedding of get_traffic_data (src/app.py, lines 50-88): build the
synthetic route request, run the guarded fetch-and-derive, and convert any
raised exception into an error message plus an absent result. -/
def get_traffic_data (lat lon : ℚ)
    (fetch : RouteRequest → Except PyError Json) :
    Option TrafficInfo × List String :=
  match get_traffic_try (fetch (mkRouteRequest lat lon)) with
  | .ok r => r
  | .error e => (none, ["Failed to retrieve traffic data: " ++ e.msg])

/-- Row of the historical AQI table: date string and average PM2.5 value,
both kept as the JSON values the feed supplied. -/
structure AqiSample where
  timestamp : Json
  aqi : Json

/-- Loop body of get_historical_aqi (src/app.py, lines 101-104): one row per
forecast entry, reading its day and avg fields. -/
def buildAqiRows : List Json → Except PyError (List AqiSample)
  | [] => .ok []
  | e :: rest => do
    let day ← e.index "day"
    let avg ← e.index "avg"
    let tail ← buildAqiRows rest
    return ⟨day, avg⟩ :: tail

/-- Embedding of get_historical_aqi (src/app.py, lines 91-110).  The
argument is the parsed feed response (or a transport error).  Exceptions
propagate: the function has no try/except. -/
def get_historical_aqi (resp : Except PyError Json) :
    Except PyError (Option Json × List AqiSample × List String) := do
  let response ← resp
  let status ← response.index "status"
  if status.eqStr "ok" then
    let data ← response.index "data"
    let current_aqi ← data.index "aqi"
    let forecast ← data.index "forecast"
    let daily ← forecast.index "daily"
    let historical_data ← daily.index "pm25"
    let entries ← historical_data.toIter
    let aqi_data ← buildAqiRows entries
    return (some current_aqi, aqi_data, [])
  else
    return (none, [], ["Failed to fetch historical AQI data."])

/-- Embedding of the presentation-side windowing (src/app.py, line 177):
historical_aqi_df.iloc[-7:], the last seven rows (all rows when fewer). -/
def last_7_days (xs : List α) : List α :=
  xs.drop (xs.length - 7)

/-- Python comparison of a possibly-absent JSON value against a number:
None, strings and other non-numeric values raise a TypeError, numbers and
booleans compare numerically. -/
def pyGtNum (x : Option Json) (bound : ℚ) : Except PyError Bool :=
  match x with
  | some (.num q) => .ok (decide (bound < q))
  | some (.bool b) => .ok (decide (bound < (if b then (1 : ℚ) else 0)))
  | _ => .error .typeError

/-- Embedding of the AQI colour choice (src/app.py, line 212):
red when current_aqi > 100, green otherwise. -/
def aqi_color (current_aqi : Option Json) : Except PyError String := do
  if (← pyGtNum current_aqi 100) then return "red" else return "green"

/-- Embedding of the top of the main render branch (src/app.py, lines
205-218): when both coordinates are present the AQI card is rendered, which
evaluates the colour comparison on current_aqi; otherwise only a fallback
error line is shown. -/
def render_main (current_aqi : Option Json) (lat lon : Option Json) :
    Except PyError (List String) :=
  match lat, lon with
  | some _, some _ => do
    let c ← aqi_color current_aqi
    return ["Current AQI card in " ++ c]
  | _, _ =>
    .ok ["Unable to fetch data for the selected city. Please try again later."]

/-- Well-shaped geocode response carrying a coord object with the given lat
and lon values, following the boundary shape in §6 of the spec. -/
def mkCityResponse (lat lon : Json) : Json :=
  .obj [("coord", .obj [("lat", lat), ("lon", lon)])]

/-- Well-shaped routing response: one feature whose properties.summary holds
the given duration and distance values. -/
def mkRouteResponse (duration distance : Json) : Json :=
  .obj [("features", .arr [.obj [("properties", .obj [("summary",
    .obj [("duration", duration), ("distance", distance)])])]])]

/-- Well-shaped AQI feed response with the given status string, current AQI
value and daily pm25 entries (day and avg pairs). -/
def mkAqiResponse (status : String) (aqi : Json) (pm25 : List (Json × Json)) : Json :=
  .obj [("status", .str status),
    ("data", .obj [("aqi", aqi),
      ("forecast", .obj [("daily", .obj [("pm25",
        .arr (pm25.map fun p => .obj [("day", p.1), ("avg", p.2)]))])])])]

/-- Sixteen concrete history rows, used to exercise the trend windowing. -/
def aqiDemoRows : List AqiSample :=
  (List.range 16).map fun i => ⟨.num i, .num i⟩

/-- Geocode response of end-to-end scenario A (Delhi). -/
def delhiCityResp : Except PyError Json :=
  .ok (mkCityResponse (.num (286/10)) (.num (772/10)))

/-- Pollution response of end-to-end scenario A: one list entry whose
components carry pm2_5 and co concentrations. -/
def delhiPollFetch : Json → Json → Except PyError Json := fun _ _ =>
  .ok (.obj [("list", .arr [.obj [("components",
    .obj [("pm2_5", .num (452/10)), ("co", .num (2001/10))])]])])

/-- Value get_pollution_data produces on scenario A. -/
def delhiPollutionResult : PollutionResult :=
  ⟨some (.obj [("pm2_5", .num (452/10)), ("co", .num (2001/10))]),
   some (.num (286/10)), some (.num (772/10)), []⟩

/-- Record produced by get_traffic_data on a 600 s, 500 m route. -/
def demoTrafficInfo : TrafficInfo :=
  ⟨600, 500, (500 : ℚ) / 1000 / 50 * 3600,
   (600 - (500 : ℚ) / 1000 / 50 * 3600) / ((500 : ℚ) / 1000 / 50 * 3600) * 100⟩

/-- Reduction of bind on a successful Except value. -/
@[simp] theorem ebind_ok {α β : Type} (a : α) (f : α → Except PyError β) :
    (Except.ok a : Except PyError α) >>= f = f a := rfl

/-- Reduction of bind on a raised exception. -/
@[simp] theorem ebind_error {α β : Type} (e : PyError) (f : α → Except PyError β) :
    (Except.error e : Except PyError α) >>= f = (.error e : Except PyError β) := rfl

/-- Pure in the Except monad is the ok constructor. -/
@[simp] theorem epure_eq {α : Type} (a : α) :
    (pure a : Except PyError α) = .ok a := rfl

/-- Reduction of get_traffic_try on a well-shaped routing response: the
derivation succeeds with the 50 km/h expected duration and the congestion
percentage, except that a zero expected duration raises ZeroDivisionError. -/
theorem get_traffic_try_route (dur dist : ℚ) :
    get_traffic_try (.ok (mkRouteResponse (.num dur) (.num dist))) =
      if dist / 1000 / 50 * 3600 = 0 then .error .zeroDivisionError
      else .ok (some ⟨dur, dist, dist / 1000 / 50 * 3600,
        (dur - dist / 1000 / 50 * 3600) / (dist / 1000 / 50 * 3600) * 100⟩, []) := rfl

/-- Row construction succeeds on a list of well-shaped forecast entries and
keeps their order. -/
theorem buildAqiRows_entries (ps : List (Json × Json)) :
    buildAqiRows (ps.map fun p => .obj [("day", p.1), ("avg", p.2)]) =
      .ok (ps.map fun p => (⟨p.1, p.2⟩ : AqiSample)) := by
  induction ps with
  | nil => rfl
  | cons p t ih =>
    simp only [List.map, buildAqiRows]
    rw [ih]
    rfl

/-- Whenever the try body of get_traffic_data yields a record, its expected
duration field equals its distance field fed through the 50 km/h formula. -/
theorem get_traffic_try_ok_shape (resp : Except PyError Json)
    (info : TrafficInfo) (msgs : List String)
    (h : get_traffic_try resp = .ok (some info, msgs)) :
    info.expected_duration = info.distance / 1000 / 50 * 3600 := by
  rw [get_traffic_try] at h
  rcases resp with e | resp
  · simp at h
  simp only [ebind_ok] at h
  rcases hk : resp.hasKey "features" with e | b <;> rw [hk] at h
  · simp at h
  simp only [ebind_ok] at h
  cases b
  · simp at h
  simp only [if_true] at h
  rcases hf : resp.index "features" with e | feats <;> rw [hf] at h
  · simp at h
  simp only [ebind_ok] at h
  cases htr : feats.truthy <;> rw [htr] at h
  · simp at h
  simp only [if_true] at h
  rcases h0 : feats.atIdx 0 with e | f0 <;> rw [h0] at h
  · simp at h
  simp only [ebind_ok] at h
  rcases hpr : f0.index "properties" with e | properties <;> rw [hpr] at h
  · simp at h
  simp only [ebind_ok] at h
  rcases hs : properties.index "summary" with e | summary <;> rw [hs] at h
  · simp at h
  simp only [ebind_ok] at h
  rcases hd : summary.index "duration" with e | durJ <;> rw [hd] at h
  · simp at h
  simp only [ebind_ok] at h
  rcases hdi : summary.index "distance" with e | distJ <;> rw [hdi] at h
  · simp at h
  simp only [ebind_ok] at h
  rcases hdn : distJ.toNum with e | dist <;> rw [hdn] at h
  · simp at h
  simp only [ebind_ok] at h
  rcases hdu : durJ.toNum with e | dur <;> rw [hdu] at h
  · simp at h
  simp only [ebind_ok] at h
  by_cases hz : dist / 1000 / 50 * 3600 = 0
  · rw [if_pos hz] at h; simp at h
  rw [if_neg hz] at h
  simp only [epure_eq] at h
  injection h with h'
  injection h' with h1 h2
  injection h1 with h1
  subst h1
  rfl

/-- C1: on every route response with a summary the derived congestion is
(duration - expected_duration) / expected_duration * 100, and a zero
distance (hence zero expected duration) is handled without a crash: the
ZeroDivisionError is caught and the function returns absent. -/
theorem traffic_congestion_and_zero_distance (lat lon dur dist : ℚ) :
    (dist ≠ 0 →
      get_traffic_data lat lon
          (fun _ => .ok (mkRouteResponse (.num dur) (.num dist))) =
        (some ⟨dur, dist, dist / 1000 / 50 * 3600,
          (dur - dist / 1000 / 50 * 3600) / (dist / 1000 / 50 * 3600) * 100⟩, [])) ∧
    get_traffic_data lat lon (fun _ => .ok (mkRouteResponse (.num dur) (.num 0))) =
      (none, ["Failed to retrieve traffic data: " ++ PyError.zeroDivisionError.msg]) := by
  constructor
  · intro hd
    have hz : dist / 1000 / 50 * 3600 ≠ 0 := by
      intro h0
      apply hd
      have hr : dist / 1000 / 50 * 3600 = dist * (3600 / 50000) := by ring
      rw [hr] at h0
      rcases mul_eq_zero.mp h0 with h1 | h1
      · exact h1
      · norm_num at h1
    rw [get_traffic_data, get_traffic_try_route, if_neg hz]
  · rw [get_traffic_data, get_traffic_try_route, if_pos (by norm_num)]

/-- Witness for C1: a 600 s route of 500 m, and the same route with zero
distance. -/
theorem traffic_congestion_and_zero_distance_witness :
    (500 : ℚ) ≠ 0 ∧
    get_traffic_data 1 2 (fun _ => .ok (mkRouteResponse (.num 600) (.num 500))) =
      (some ⟨600, 500, (500 : ℚ) / 1000 / 50 * 3600,
        (600 - (500 : ℚ) / 1000 / 50 * 3600) / ((500 : ℚ) / 1000 / 50 * 3600) * 100⟩, []) ∧
    get_traffic_data 1 2 (fun _ => .ok (mkRouteResponse (.num 600) (.num 0))) =
      (none, ["Failed to retrieve traffic data: " ++ PyError.zeroDivisionError.msg]) :=
  ⟨by norm_num,
   (traffic_congestion_and_zero_distance 1 2 600 500).1 (by norm_num),
   (traffic_congestion_and_zero_distance 1 2 600 500).2⟩

/-- C2: whatever the two upstream responses are, whenever get_pollution_data
returns (rather than raising), its result is either a complete triple of
components, latitude and longitude, or absent for all three outputs; it is
never a partial pair. -/
theorem pollution_complete_or_absent (cityResp : Except PyError Json)
    (pollFetch : Json → Json → Except PyError Json) (r : PollutionResult)
    (h : get_pollution_data cityResp pollFetch = .ok r) :
    (r.components.isSome ∧ r.lat.isSome ∧ r.lon.isSome) ∨
    (r.components = none ∧ r.lat = none ∧ r.lon = none) := by
  rw [get_pollution_data] at h
  rcases cityResp with e | city
  · simp at h
  simp only [ebind_ok] at h
  rcases hk : city.hasKey "coord" with e | b <;> rw [hk] at h
  · simp at h
  simp only [ebind_ok] at h
  cases b
  · simp only [Bool.false_eq_true, if_false, epure_eq] at h
    injection h with h'
    subst h'
    right; exact ⟨rfl, rfl, rfl⟩
  simp only [if_true] at h
  rcases hc : city.index "coord" with e | coord <;> rw [hc] at h
  · simp at h
  simp only [ebind_ok] at h
  rcases hla : coord.index "lat" with e | lat <;> rw [hla] at h
  · simp at h
  simp only [ebind_ok] at h
  rcases hlo : coord.index "lon" with e | lon <;> rw [hlo] at h
  · simp at h
  simp only [ebind_ok] at h
  rcases hp : pollFetch lat lon with e | presp <;> rw [hp] at h
  · simp at h
  simp only [ebind_ok] at h
  rcases hk2 : presp.hasKey "list" with e | b2 <;> rw [hk2] at h
  · simp at h
  simp only [ebind_ok] at h
  cases b2
  · simp only [Bool.false_eq_true, if_false, epure_eq] at h
    injection h with h'
    subst h'
    right; exact ⟨rfl, rfl, rfl⟩
  simp only [if_true] at h
  rcases hl : presp.index "list" with e | lst <;> rw [hl] at h
  · simp at h
  simp only [ebind_ok] at h
  cases htr : lst.truthy <;> rw [htr] at h
  · simp only [Bool.false_eq_true, if_false, epure_eq] at h
    injection h with h'
    subst h'
    right; exact ⟨rfl, rfl, rfl⟩
  simp only [if_true] at h
  rcases h0 : lst.atIdx 0 with e | first <;> rw [h0] at h
  · simp at h
  simp only [ebind_ok] at h
  rcases hcm : first.index "components" with e | comps <;> rw [hcm] at h
  · simp at h
  simp only [ebind_ok, epure_eq] at h
  injection h with h'
  subst h'
  left; exact ⟨rfl, rfl, rfl⟩

/-- Witness for C2 on end-to-end scenario A (Delhi). -/
theorem pollution_complete_or_absent_witness :
    get_pollution_data delhiCityResp delhiPollFetch = .ok delhiPollutionResult ∧
    ((delhiPollutionResult.components.isSome ∧ delhiPollutionResult.lat.isSome ∧
        delhiPollutionResult.lon.isSome) ∨
     (delhiPollutionResult.components = none ∧ delhiPollutionResult.lat = none ∧
        delhiPollutionResult.lon = none)) :=
  ⟨rfl, pollution_complete_or_absent delhiCityResp delhiPollFetch
    delhiPollutionResult rfl⟩

/-- C3: get_traffic_data propagates no exception.  On a response with no
route feature (key absent, or a falsy features value) it returns absent with
the no-route message, and on a transport-level exception it catches the
exception, surfaces an error message and returns absent. -/
theorem traffic_no_route_and_catch :
    (∀ (lat lon : ℚ) (resp : Json), resp.hasKey "features" = .ok false →
      get_traffic_data lat lon (fun _ => .ok resp)
        = (none, ["No route found in the API response."])) ∧
    (∀ (lat lon : ℚ) (resp v : Json), resp.hasKey "features" = .ok true →
      resp.index "features" = .ok v → v.truthy = false →
      get_traffic_data lat lon (fun _ => .ok resp)
        = (none, ["No route found in the API response."])) ∧
    (∀ (lat lon : ℚ) (e : PyError),
      get_traffic_data lat lon (fun _ => .error e)
        = (none, ["Failed to retrieve traffic data: " ++ e.msg])) := by
  refine ⟨fun lat lon resp hk => ?_, fun lat lon resp v hk hi ht => ?_,
    fun _ _ _ => rfl⟩
  · rw [get_traffic_data]
    have h1 : get_traffic_try (.ok resp)
        = .ok (none, ["No route found in the API response."]) := by
      rw [get_traffic_try]; simp [hk]
    rw [h1]
  · rw [get_traffic_data]
    have h1 : get_traffic_try (.ok resp)
        = .ok (none, ["No route found in the API response."]) := by
      rw [get_traffic_try]; simp [hk, hi, ht]
    rw [h1]

/-- Witness for C3: a featureless response, an empty features list, and a
connection failure. -/
theorem traffic_no_route_and_catch_witness :
    (Json.obj []).hasKey "features" = .ok false ∧
    get_traffic_data 1 2 (fun _ => .ok (.obj []))
      = (none, ["No route found in the API response."]) ∧
    get_traffic_data 1 2 (fun _ => .ok (.obj [("features", .arr [])]))
      = (none, ["No route found in the API response."]) ∧
    get_traffic_data 1 2 (fun _ => .error (.transportError "connection timed out"))
      = (none, ["Failed to retrieve traffic data: "
          ++ (PyError.transportError "connection timed out").msg]) :=
  ⟨rfl, traffic_no_route_and_catch.1 1 2 (.obj []) rfl,
   traffic_no_route_and_catch.2.1 1 2 (.obj [("features", .arr [])])
     (.arr []) rfl rfl rfl,
   traffic_no_route_and_catch.2.2 1 2 (.transportError "connection timed out")⟩

/-- C4: on every feed response whose status field is not the string ok,
get_historical_aqi returns an absent current value and an empty sequence;
on a well-shaped response with status ok it returns one row per daily pm25
forecast entry, in upstream order. -/
theorem aqi_history_status_behaviour :
    (∀ (j v : Json), j.index "status" = .ok v → v.eqStr "ok" = false →
      get_historical_aqi (.ok j)
        = .ok (none, [], ["Failed to fetch historical AQI data."])) ∧
    (∀ (aqi : Json) (ps : List (Json × Json)),
      get_historical_aqi (.ok (mkAqiResponse "ok" aqi ps)) =
        .ok (some aqi, ps.map (fun p => (⟨p.1, p.2⟩ : AqiSample)), [])) := by
  constructor
  · intro j v hst hv
    rw [get_historical_aqi]
    simp [hst, hv]
  · intro aqi ps
    have h0 : get_historical_aqi (.ok (mkAqiResponse "ok" aqi ps)) =
        buildAqiRows (ps.map fun p => .obj [("day", p.1), ("avg", p.2)]) >>=
          fun rows => pure (some aqi, rows, []) := rfl
    rw [h0, buildAqiRows_entries]
    rfl

/-- Witness for C4: a status error response and a two-entry ok response. -/
theorem aqi_history_status_behaviour_witness :
    (mkAqiResponse "error" (.num 1) []).index "status" = .ok (.str "error") ∧
    (Json.str "error").eqStr "ok" = false ∧
    get_historical_aqi (.ok (mkAqiResponse "error" (.num 1) []))
      = .ok (none, [], ["Failed to fetch historical AQI data."]) ∧
    get_historical_aqi (.ok (mkAqiResponse "ok" (.num 55)
        [(.str "2024-01-01", .num 12), (.str "2024-01-02", .num 15)]))
      = .ok (some (.num 55),
          [⟨.str "2024-01-01", .num 12⟩, ⟨.str "2024-01-02", .num 15⟩], []) :=
  ⟨rfl, rfl,
   aqi_history_status_behaviour.1 (mkAqiResponse "error" (.num 1) [])
     (.str "error") rfl rfl,
   aqi_history_status_behaviour.2 (.num 55)
     [(.str "2024-01-01", .num 12), (.str "2024-01-02", .num 15)]⟩

/-- C5: whenever get_traffic_data returns a record, for any transport and
any response, the expected duration field is exactly
(distance / 1000) / 50 * 3600 seconds. -/
theorem traffic_expected_duration_formula (lat lon : ℚ)
    (fetch : RouteRequest → Except PyError Json)
    (info : TrafficInfo) (msgs : List String)
    (h : get_traffic_data lat lon fetch = (some info, msgs)) :
    info.expected_duration = info.distance / 1000 / 50 * 3600 := by
  rw [get_traffic_data] at h
  rcases ht : get_traffic_try (fetch (mkRouteRequest lat lon)) with e | p <;>
    rw [ht] at h
  · simp at h
  rcases p with ⟨o, m⟩
  rcases o with _ | i
  · simp at h
  injection h with h1 h2
  injection h1 with h1
  subst h1; subst h2
  exact get_traffic_try_ok_shape _ _ _ ht

/-- Witness for C5 on a 600 s, 500 m route. -/
theorem traffic_expected_duration_formula_witness :
    get_traffic_data 1 2 (fun _ => .ok (mkRouteResponse (.num 600) (.num 500)))
      = (some demoTrafficInfo, []) ∧
    demoTrafficInfo.expected_duration
      = demoTrafficInfo.distance / 1000 / 50 * 3600 := by
  have hEq : get_traffic_data 1 2
      (fun _ => .ok (mkRouteResponse (.num 600) (.num 500)))
      = (some demoTrafficInfo, []) := by
    rw [get_traffic_data, get_traffic_try_route, if_neg (by norm_num)]
    rfl
  exact ⟨hEq, traffic_expected_duration_formula 1 2
    (fun _ => .ok (mkRouteResponse (.num 600) (.num 500))) demoTrafficInfo [] hEq⟩

/-- C6: for every origin coordinate pair, the synthetic destination that
get_traffic_data sends to the routing endpoint is exactly the origin offset
by +0.01 degrees in latitude and +0.01 degrees in longitude, and the
function consults the transport only at that synthetic request. -/
theorem traffic_request_offset (lat lon : ℚ) :
    (mkRouteRequest lat lon).startLat = lat ∧
    (mkRouteRequest lat lon).startLon = lon ∧
    (mkRouteRequest lat lon).endLat = (mkRouteRequest lat lon).startLat + 1/100 ∧
    (mkRouteRequest lat lon).endLon = (mkRouteRequest lat lon).startLon + 1/100 ∧
    ∀ f g : RouteRequest → Except PyError Json,
      f (mkRouteRequest lat lon) = g (mkRouteRequest lat lon) →
      get_traffic_data lat lon f = get_traffic_data lat lon g := by
  refine ⟨rfl, rfl, rfl, rfl, fun f g hfg => ?_⟩
  rw [get_traffic_data, get_traffic_data, hfg]

/-- Witness for C6 at the Delhi coordinates, with two transports that agree
on the synthetic request but not elsewhere. -/
theorem traffic_request_offset_witness :
    (mkRouteRequest (286/10) (772/10)).endLat
        = (mkRouteRequest (286/10) (772/10)).startLat + 1/100 ∧
    (mkRouteRequest (286/10) (772/10)).endLon
        = (mkRouteRequest (286/10) (772/10)).startLon + 1/100 ∧
    get_traffic_data (286/10) (772/10) (fun _ => .ok (.obj [])) =
      get_traffic_data (286/10) (772/10)
        (fun r => if r.startLat = 286/10 then .ok (.obj []) else .error .indexError) :=
  ⟨(traffic_request_offset (286/10) (772/10)).2.2.1,
   (traffic_request_offset (286/10) (772/10)).2.2.2.1,
   (traffic_request_offset (286/10) (772/10)).2.2.2.2 _ _
     (by norm_num [mkRouteRequest])⟩

/-- C7: restricting a 16-entry AQI history to the last 7 entries yields
exactly the final 7 entries of the input, in their original order. -/
theorem aqi_window_last7 (xs : List AqiSample) (h : xs.length = 16) :
    last_7_days xs = xs.drop 9 ∧ (last_7_days xs).length = 7 ∧
    ∀ i : ℕ, (last_7_days xs)[i]? = xs[9 + i]? := by
  rw [last_7_days, h]
  refine ⟨rfl, ?_, fun i => ?_⟩
  · rw [List.length_drop, h]
  · exact List.getElem?_drop xs 9 i

/-- Witness for C7 on sixteen concrete rows. -/
theorem aqi_window_last7_witness :
    aqiDemoRows.length = 16 ∧
    last_7_days aqiDemoRows = aqiDemoRows.drop 9 ∧
    (last_7_days aqiDemoRows).length = 7 ∧
    (last_7_days aqiDemoRows)[0]? = aqiDemoRows[9]? :=
  ⟨rfl, (aqi_window_last7 aqiDemoRows rfl).1, (aqi_window_last7 aqiDemoRows rfl).2.1,
   (aqi_window_last7 aqiDemoRows rfl).2.2 0⟩

/-- C8: a transport-level failure is contained only in get_traffic_data; in
get_pollution_data (on either of its two requests) and in get_historical_aqi
the exception propagates out unhandled, while get_traffic_data converts it
into a message plus an absent result. -/
theorem transport_error_containment :
    (∀ (e : PyError) (pf : Json → Json → Except PyError Json),
      get_pollution_data (.error e) pf = .error e) ∧
    (∀ (lat lon : ℚ) (e : PyError),
      get_pollution_data (.ok (mkCityResponse (.num lat) (.num lon)))
        (fun _ _ => .error e) = .error e) ∧
    (∀ e : PyError, get_historical_aqi (.error e) = .error e) ∧
    (∀ (lat lon : ℚ) (e : PyError),
      get_traffic_data lat lon (fun _ => .error e) =
        (none, ["Failed to retrieve traffic data: " ++ e.msg])) :=
  ⟨fun _ _ => rfl, fun _ _ _ => rfl, fun _ => rfl, fun _ _ _ => rfl⟩

/-- C9: get_historical_aqi trusts the response shape beyond the status
check: with status "ok" but a missing data, aqi or forecast field, and with
a missing status field, it raises an unhandled KeyError instead of returning
the absent-plus-empty outcome. -/
theorem aqi_history_shape_key_errors :
    get_historical_aqi (.ok (.obj [("status", .str "ok")]))
        = .error (.keyError "data") ∧
    get_historical_aqi (.ok (.obj [("status", .str "ok"), ("data", .obj [])]))
        = .error (.keyError "aqi") ∧
    get_historical_aqi
        (.ok (.obj [("status", .str "ok"), ("data", .obj [("aqi", .num 42)])]))
        = .error (.keyError "forecast") ∧
    get_historical_aqi (.ok (.obj [])) = .error (.keyError "status") :=
  ⟨rfl, rfl, rfl, rfl⟩

/-- C10: when coordinates are present but the current AQI is absent, the
main render evaluates the comparison of the absent value against 100 and
raises an unhandled TypeError, aborting the render. -/
theorem render_absent_aqi_type_error (la lo : Json) :
    render_main none (some la) (some lo) = .error .typeError := rfl

end SmartCity
